import Mathlib

/-!
# Verification of the virtual-mouse gesture core

Shallow embedding of the gesture-interpretation core of the virtual mouse
repository:

* `gesture_controller.py` — `GestureController` (classifier state, `process`,
  `reset`, `_is_debounced`, `_compute_pointer`, `_distance`, `_vertical_delta`);
* `virtual_mouse.py` — `VirtualMouseEngine._apply_gesture` and the state
  transitions of `VirtualMouseEngine.run`.

Python floats are modelled by `ℚ`.  The only use the program makes of the
Euclidean distance `math.dist` is the comparison
`pinch_distance < click_threshold`; since a distance is nonnegative, that
comparison is equivalent to comparing squared distance against squared
threshold whenever `0 ≤ click_threshold` (theorems that depend on the pinch
test carry this hypothesis; the shipped default is `0.035`).  Carrying the
square keeps the model inside `ℚ`.
-/

namespace VirtualMouse

/-- `np.clip(x, lo, hi)`: `min(max(x, lo), hi)`. -/
def clip (x lo hi : ℚ) : ℚ := min (max x lo) hi

/-- `HandLandmark` from `hand_tracking.py` (MediaPipe normalised coordinates). -/
structure HandLandmark where
  x : ℚ
  y : ℚ
  z : ℚ
  visibility : ℚ
deriving DecidableEq, Repr

/-- `HandObservation` from `hand_tracking.py`. -/
structure HandObservation where
  frame_size : ℤ × ℤ
  landmarks : List HandLandmark
  handedness : String
  timestamp : ℚ
deriving DecidableEq, Repr

/-- `GestureConfig` from `utils/config.py`. -/
structure GestureConfig where
  smoothing_alpha : ℚ
  click_threshold : ℚ
  drag_threshold : ℚ
  scroll_threshold : ℚ
  debounce_ms : ℤ
  idle_timeout_sec : ℚ
deriving DecidableEq, Repr

/-- The dataclass defaults of `GestureConfig`
(`0.25, 0.035, 0.04, 0.12, 180, 2.0`). -/
def defaultGestureConfig : GestureConfig :=
  { smoothing_alpha := 1/4
    click_threshold := 7/200
    drag_threshold := 1/25
    scroll_threshold := 3/25
    debounce_ms := 180
    idle_timeout_sec := 2 }

/-- `GestureType` from `gesture_controller.py`. -/
inductive GestureType where
  | idle
  | move
  | click
  | drag
  | scroll
deriving DecidableEq, Repr

/-- `GestureResult` from `gesture_controller.py`. -/
structure GestureResult where
  gesture : GestureType
  pointer : Option (ℚ × ℚ)
  scroll_delta : ℚ
  is_click : Bool
  is_drag : Bool
deriving DecidableEq, Repr

/-- The mutable fields of `GestureController`
(`_smoothed_position`, `_last_pinched`, `_last_event_time`, `_drag_active`). -/
structure ClassifierState where
  smoothed_position : Option (ℚ × ℚ)
  last_pinched : Bool
  last_event_time : ℚ
  drag_active : Bool
deriving DecidableEq, Repr

/-- The field values set by `GestureController.__init__`. -/
def initClassifierState : ClassifierState :=
  { smoothed_position := none
    last_pinched := false
    last_event_time := 0
    drag_active := false }

/-- `GestureController._compute_pointer`: returns `none` when landmark 8 is
missing (the `IndexError` path); otherwise returns the updated
`_smoothed_position` together with the value the method returns, i.e. the
smoothed position clipped to `[0,1]` per axis.  Note the stored smoothed
position itself is not clipped, exactly as in the source. -/
def computePointer (cfg : GestureConfig) (smoothed : Option (ℚ × ℚ))
    (landmarks : List HandLandmark) : Option ((ℚ × ℚ) × (ℚ × ℚ)) :=
  match landmarks[8]? with
  | none => none
  | some fingertip =>
      let position : ℚ × ℚ := (fingertip.x, fingertip.y)
      let newSmoothed : ℚ × ℚ :=
        match smoothed with
        | none => position
        | some prev =>
            let alpha := clip cfg.smoothing_alpha 0 1
            (alpha * position.1 + (1 - alpha) * prev.1,
             alpha * position.2 + (1 - alpha) * prev.2)
      some (newSmoothed, (clip newSmoothed.1 0 1, clip newSmoothed.2 0 1))

/-- Squared version of `GestureController._distance`: the source returns the
Euclidean distance `math.dist((ax,ay),(bx,by))` and the sentinel `1.0` when an
index is out of range; we carry the square (sentinel `1`). -/
def distanceSq (landmarks : List HandLandmark) (idx_a idx_b : ℕ) : ℚ :=
  match landmarks[idx_a]?, landmarks[idx_b]? with
  | some pa, some pb => (pa.x - pb.x)^2 + (pa.y - pb.y)^2
  | _, _ => 1

/-- The source's pinch test `pinch_distance < self._config.click_threshold`,
expressed on squares (equivalent whenever `0 ≤ click_threshold`). -/
def pinchTriggered (cfg : GestureConfig) (landmarks : List HandLandmark) : Bool :=
  distanceSq landmarks 4 8 < cfg.click_threshold ^ 2

/-- `GestureController._vertical_delta` (delta `0.0` when an index is out of
range). -/
def verticalDelta (landmarks : List HandLandmark) (idx_a idx_b : ℕ) : ℚ :=
  match landmarks[idx_a]?, landmarks[idx_b]? with
  | some pa, some pb => pb.y - pa.y
  | _, _ => 0

/-- `GestureController._is_debounced`:
`(timestamp - self._last_event_time) > (self._config.debounce_ms / 1000.0)`. -/
def isDebounced (cfg : GestureConfig) (s : ClassifierState) (timestamp : ℚ) : Bool :=
  timestamp - s.last_event_time > (cfg.debounce_ms : ℚ) / 1000

/-- `math.copysign(magnitude, d)` at the one call site, where `magnitude ≥ 0`
(`ℚ` has no negative zero; `d = 0` there forces `magnitude = 0`). -/
def copysign (magnitude d : ℚ) : ℚ := if d < 0 then -magnitude else magnitude

/-- `GestureController.process`, returning the `GestureResult` and the updated
classifier state.  Mirrors the source: pointer smoothing first, then the
scroll check, then the pinch check which may overwrite the gesture chosen by
the scroll check, and finally the result's gesture is forced to `IDLE` when no
pointer tuple was produced (`gesture if pointer_tuple else GestureType.IDLE`;
a non-`None` pointer is a 2-tuple, hence always truthy).  The source's
`if self._drag_active and self._last_pinched: is_drag = False` in the release
branch assigns a value `is_drag` already has, so it is a no-op. -/
def process (cfg : GestureConfig) (s : ClassifierState) (obs : HandObservation) :
    GestureResult × ClassifierState :=
  let pointerStep := computePointer cfg s.smoothed_position obs.landmarks
  let smoothed' : Option (ℚ × ℚ) :=
    match pointerStep with
    | some pr => some pr.1
    | none => s.smoothed_position
  let pointer : Option (ℚ × ℚ) := pointerStep.map (fun pr => pr.2)
  let pinched := pinchTriggered cfg obs.landmarks
  let middle_delta := verticalDelta obs.landmarks 8 12
  let now := obs.timestamp
  let scrollHit : Bool := |middle_delta| > cfg.scroll_threshold
  let gesture0 : GestureType := if scrollHit then .scroll else .move
  let scroll_delta : ℚ :=
    if scrollHit then -(copysign (min |middle_delta| (1/4)) middle_delta) else 0
  if pinched then
    if !s.last_pinched && isDebounced cfg s now then
      ({ gesture := if pointer.isSome then .click else .idle
         pointer := pointer
         scroll_delta := scroll_delta
         is_click := true
         is_drag := false },
       { smoothed_position := smoothed'
         last_pinched := true
         last_event_time := now
         drag_active := true })
    else
      ({ gesture := if pointer.isSome then .drag else .idle
         pointer := pointer
         scroll_delta := scroll_delta
         is_click := false
         is_drag := true },
       { smoothed_position := smoothed'
         last_pinched := true
         last_event_time := s.last_event_time
         drag_active := true })
  else
    ({ gesture := if pointer.isSome then gesture0 else .idle
       pointer := pointer
       scroll_delta := scroll_delta
       is_click := false
       is_drag := false },
     { smoothed_position := smoothed'
       last_pinched := false
       last_event_time := s.last_event_time
       drag_active := false })

/-- `GestureController.reset`. -/
def reset (s : ClassifierState) : ClassifierState :=
  { s with smoothed_position := none, last_pinched := false, drag_active := false }

/-- Classifier state after processing a list of observations in order. -/
def stateAfter (cfg : GestureConfig) (s : ClassifierState)
    (obss : List HandObservation) : ClassifierState :=
  obss.foldl (fun st o => (process cfg st o).2) s

/-- The landmark list used by the repository's own test helper
`_make_landmarks`: 21 landmarks at `(0.5,0.5)`, with indices 8 (index tip),
4 (thumb tip) and 12 (middle tip) overridden. -/
def mkLandmarks (indexTip thumbTip middleTip : ℚ × ℚ) : List HandLandmark :=
  (((List.replicate 21 ⟨1/2, 1/2, 0, 1⟩).set 8
      ⟨indexTip.1, indexTip.2, 0, 1⟩).set 4
      ⟨thumbTip.1, thumbTip.2, 0, 1⟩).set 12
      ⟨middleTip.1, middleTip.2, 0, 1⟩

/-- An observation in the shape built by the repository's test helper
`_observation`. -/
def mkObservation (indexTip thumbTip middleTip : ℚ × ℚ) (ts : ℚ) :
    HandObservation :=
  { frame_size := (640, 480)
    landmarks := mkLandmarks indexTip thumbTip middleTip
    handedness := "Right"
    timestamp := ts }

/-! ## The engine (`virtual_mouse.py`) -/

/-- Commands the engine issues to the `PointerController` sink. -/
inductive PointerCmd where
  | move (x y : ℤ)
  | click
  | press
  | release
  | scroll (dy : ℚ)
deriving DecidableEq, Repr

/-- Python `int()` truncation toward zero, as used in
`int(gesture.pointer[0] * screen_w)`. -/
def pyInt (q : ℚ) : ℤ := if q < 0 then ⌈q⌉ else ⌊q⌋

/-- `VirtualMouseEngine._apply_gesture`: the commands issued to the pointer
sink for one gesture result, and the updated `_dragging` flag.  A non-`None`
pointer is a 2-tuple, hence truthy, so the move branch fires exactly when the
pointer is present; `gesture.scroll_delta` is truthy exactly when nonzero. -/
def applyGesture (g : GestureResult) (screen_w screen_h : ℤ) (dragging : Bool) :
    List PointerCmd × Bool :=
  let moveCmds : List PointerCmd :=
    match g.pointer with
    | some p => [.move (pyInt (p.1 * screen_w)) (pyInt (p.2 * screen_h))]
    | none => []
  let buttonCmds : List PointerCmd :=
    if g.gesture = GestureType.click ∧ g.is_click = true then
      .click :: (if dragging then [PointerCmd.release] else [])
    else if g.gesture = GestureType.drag then
      (if dragging then [] else [PointerCmd.press])
    else
      (if dragging then [PointerCmd.release] else [])
  let dragging' : Bool :=
    if g.gesture = GestureType.click ∧ g.is_click = true then false
    else if g.gesture = GestureType.drag then true
    else false
  let scrollCmds : List PointerCmd :=
    if g.gesture = GestureType.scroll ∧ g.scroll_delta ≠ 0 then
      [.scroll (g.scroll_delta * 120)]
    else []
  (moveCmds ++ buttonCmds ++ scrollCmds, dragging')

/-- The engine-owned mutable state used by `VirtualMouseEngine.run`:
the classifier's fields, `self._dragging` and the local `last_seen`. -/
structure EngineState where
  gestures : ClassifierState
  dragging : Bool
  last_seen : ℚ
deriving DecidableEq, Repr

/-- One iteration of the loop body of `VirtualMouseEngine.run`, for the
`show_debug = false` configuration and a tick on which `stop_event` is not
set (the debug branches only render a window and poll the exit key).  The
input is the tick's detector output (`none` when no hand is visible) and the
event-loop time `now`; the output is the commands issued to the pointer sink
during the tick, the updated engine state, and `some reason` when the tick
breaks out of the loop. -/
def engineTick (gcfg : GestureConfig) (maxInactive : ℚ) (screen_w screen_h : ℤ)
    (es : EngineState) (obs : Option HandObservation) (now : ℚ) :
    List PointerCmd × EngineState × Option String :=
  match obs with
  | none =>
      let es' : EngineState := { es with gestures := reset es.gestures }
      if maxInactive > 0 ∧ now - es'.last_seen > maxInactive then
        ([], es', some "idle_timeout")
      else
        ([], es', none)
  | some o =>
      let es1 : EngineState := { es with last_seen := o.timestamp }
      let pg := process gcfg es1.gestures o
      let ac := applyGesture pg.1 screen_w screen_h es1.dragging
      (ac.1, { gestures := pg.2, dragging := ac.2, last_seen := es1.last_seen }, none)

/-- The loop of `VirtualMouseEngine.run` over a finite list of ticks
`(detector output, loop time)`.  Returns the exit reason (`"stopped"` when the
frame stream ends, as in the source where `reason` keeps its initial value),
all commands issued, and the engine state at loop exit. -/
def runLoop (gcfg : GestureConfig) (maxInactive : ℚ) (screen_w screen_h : ℤ) :
    EngineState → List (Option HandObservation × ℚ) →
      String × List PointerCmd × EngineState
  | es, [] => ("stopped", [], es)
  | es, (obs, now) :: rest =>
      let step := engineTick gcfg maxInactive screen_w screen_h es obs now
      match step.2.2 with
      | some r => (r, step.1, step.2.1)
      | none =>
          let tail := runLoop gcfg maxInactive screen_w screen_h step.2.1 rest
          (tail.1, step.1 ++ tail.2.1, tail.2.2)

/-- `VirtualMouseEngine.run`: the loop followed by the `finally` cleanup,
which releases the button when `self._dragging` is still set and clears the
flag. -/
def engineRun (gcfg : GestureConfig) (maxInactive : ℚ) (screen_w screen_h : ℤ)
    (es : EngineState) (ticks : List (Option HandObservation × ℚ)) :
    String × List PointerCmd × EngineState :=
  let body := runLoop gcfg maxInactive screen_w screen_h es ticks
  if body.2.2.dragging then
    (body.1, body.2.1 ++ [PointerCmd.release], { body.2.2 with dragging := false })
  else
    body

/-! ## Scenario inputs (from the spec's end-to-end scenarios and the
repository's unit tests) -/

/-- Scenario A: index `(0.5,0.5)`, thumb `(0.48,0.5)`, middle `(0.5,0.7)`,
at a timestamp past the debounce window of a fresh classifier. -/
def obsScenarioA : HandObservation :=
  mkObservation (1/2, 1/2) (12/25, 1/2) (1/2, 7/10) 1

/-- Scenario C: middle fingertip `0.3` below the index fingertip
(`index=(0.5,0.4)`, `middle=(0.5,0.7)`), thumb far away. -/
def obsScenarioC : HandObservation :=
  mkObservation (1/2, 2/5) (0, 0) (1/2, 7/10) 1

/-- Scenario B, first frame: index at `(0.1,0.1)`. -/
def obsScenarioB1 : HandObservation :=
  mkObservation (1/10, 1/10) (0, 0) (1/10, 1/5) (1/10)

/-- Scenario B, second frame: index at `(0.9,0.9)`. -/
def obsScenarioB2 : HandObservation :=
  mkObservation (9/10, 9/10) (0, 0) (9/10, 4/5) (1/5)

/-- Scenario B configuration: `smoothing_alpha = 0.5`. -/
def cfgScenarioB : GestureConfig :=
  { defaultGestureConfig with smoothing_alpha := 1/2 }

/-- Concrete trace for the C3 witness: a click-producing pinch at `t = 1`. -/
def obsPinchFirst : HandObservation :=
  mkObservation (1/2, 1/2) (12/25, 1/2) (1/2, 1/2) 1

/-- Concrete trace for the C3 witness: pinch released at `t = 1.05`. -/
def obsReleaseMid : HandObservation :=
  mkObservation (1/2, 1/2) (0, 0) (1/2, 1/2) (21/20)

/-- Concrete trace for the C3 witness: pinch again at `t = 1.1`, only
`0.1 s < 0.18 s` after the click. -/
def obsPinchSecond : HandObservation :=
  mkObservation (1/2, 1/2) (12/25, 1/2) (1/2, 1/2) (11/10)

/-- An engine state with the button held, used by the C1 counterexample and
the engine witnesses. -/
def esDragging : EngineState :=
  { gestures := initClassifierState, dragging := true, last_seen := 0 }

/-- A gesture result with a pointer at `(3/4, 3/4)`, used by the C8
counterexample. -/
def gMoveQuarter : GestureResult :=
  { gesture := GestureType.move, pointer := some (3/4, 3/4), scroll_delta := 0,
    is_click := false, is_drag := false }

/-- A scroll gesture result used by the C8 witness. -/
def gScrollHalf : GestureResult :=
  { gesture := GestureType.scroll, pointer := some (1/2, 1/2),
    scroll_delta := -(1/4), is_click := false, is_drag := false }


/-! ## Helper lemmas -/

theorem mkLandmarks_get4 (indexTip thumbTip middleTip : ℚ × ℚ) :
    (mkLandmarks indexTip thumbTip middleTip)[4]? =
      some ⟨thumbTip.1, thumbTip.2, 0, 1⟩ := rfl

theorem mkLandmarks_get8 (indexTip thumbTip middleTip : ℚ × ℚ) :
    (mkLandmarks indexTip thumbTip middleTip)[8]? =
      some ⟨indexTip.1, indexTip.2, 0, 1⟩ := rfl

theorem mkLandmarks_get12 (indexTip thumbTip middleTip : ℚ × ℚ) :
    (mkLandmarks indexTip thumbTip middleTip)[12]? =
      some ⟨middleTip.1, middleTip.2, 0, 1⟩ := rfl

theorem process_drag_active (cfg : GestureConfig) (s : ClassifierState)
    (obs : HandObservation) :
    (process cfg s obs).2.drag_active = pinchTriggered cfg obs.landmarks := by
  by_cases hp : pinchTriggered cfg obs.landmarks
  · rw [hp]
    simp only [process, hp, if_true]
    split <;> rfl
  · rw [Bool.not_eq_true] at hp
    rw [hp]
    simp only [process, hp, Bool.false_eq_true, if_false]

theorem process_last_pinched (cfg : GestureConfig) (s : ClassifierState)
    (obs : HandObservation) :
    (process cfg s obs).2.last_pinched = pinchTriggered cfg obs.landmarks := by
  by_cases hp : pinchTriggered cfg obs.landmarks
  · rw [hp]
    simp only [process, hp, if_true]
    split <;> rfl
  · rw [Bool.not_eq_true] at hp
    rw [hp]
    simp only [process, hp, Bool.false_eq_true, if_false]

theorem process_last_event_time_cases (cfg : GestureConfig) (s : ClassifierState)
    (obs : HandObservation) :
    (process cfg s obs).2.last_event_time = s.last_event_time ∨
      (process cfg s obs).2.last_event_time = obs.timestamp := by
  by_cases hp : pinchTriggered cfg obs.landmarks
  · by_cases hc : (!s.last_pinched && isDebounced cfg s obs.timestamp) = true
    · refine Or.inr ?_
      simp only [process, hp, if_true, hc]
    · refine Or.inl ?_
      simp only [process, hp, if_true, hc, Bool.false_eq_true, if_false]
  · refine Or.inl ?_
    simp only [process, hp, Bool.false_eq_true, if_false]

theorem process_is_click_time (cfg : GestureConfig) (s : ClassifierState)
    (obs : HandObservation) (h : (process cfg s obs).1.is_click = true) :
    (process cfg s obs).2.last_event_time = obs.timestamp := by
  by_cases hp : pinchTriggered cfg obs.landmarks
  · by_cases hc : (!s.last_pinched && isDebounced cfg s obs.timestamp) = true
    · simp only [process, hp, if_true, hc]
    · exfalso
      simp only [process, hp, if_true, hc, Bool.false_eq_true, if_false] at h
  · exfalso
    simp only [process, hp, Bool.false_eq_true, if_false] at h

theorem computePointer_isSome (cfg : GestureConfig) (sm : Option (ℚ × ℚ))
    (lms : List HandLandmark) :
    (computePointer cfg sm lms).isSome = lms[8]?.isSome := by
  rcases h8 : lms[8]? with _ | ft <;> simp [computePointer, h8]

theorem process_pointer_isSome (cfg : GestureConfig) (s : ClassifierState)
    (obs : HandObservation) :
    (process cfg s obs).1.pointer.isSome = obs.landmarks[8]?.isSome := by
  rcases h8 : obs.landmarks[8]? with _ | ft <;>
    by_cases hp : pinchTriggered cfg obs.landmarks <;>
      simp only [process, computePointer, h8, hp, if_true, Bool.false_eq_true,
        if_false] <;>
      first
        | (split <;> simp)
        | simp

theorem pinch_landmark8 (cfg : GestureConfig) (lms : List HandLandmark)
    (hct0 : 0 ≤ cfg.click_threshold) (hct1 : cfg.click_threshold ≤ 1)
    (hp : pinchTriggered cfg lms = true) : lms[8]?.isSome = true := by
  have hsq : cfg.click_threshold ^ 2 ≤ 1 := by nlinarith
  unfold pinchTriggered distanceSq at hp
  rw [decide_eq_true_eq] at hp
  rcases h8 : lms[8]? with _ | pb
  · exfalso
    have h1 : (1:ℚ) < cfg.click_threshold ^ 2 := by
      rcases h4 : lms[4]? with _ | pa <;> rw [h4, h8] at hp <;> exact hp
    linarith
  · rfl

/-- When the pinch test fails with the debounce window still open
(`¬ (now - last_event_time > debounce_ms/1000)`), `process` takes the `Drag`
branch: no click, `is_drag = true`, and — provided the pinch distance is a
real distance, i.e. `0 ≤ click_threshold ≤ 1` so that the sentinel `1.0`
cannot pass the test — the emitted kind is `Drag`. -/
theorem process_drag_of_not_debounced (cfg : GestureConfig) (s : ClassifierState)
    (obs : HandObservation)
    (hct0 : 0 ≤ cfg.click_threshold) (hct1 : cfg.click_threshold ≤ 1)
    (hp : pinchTriggered cfg obs.landmarks = true)
    (hnd : ¬ (obs.timestamp - s.last_event_time > (cfg.debounce_ms : ℚ) / 1000)) :
    (process cfg s obs).1.is_click = false ∧
      (process cfg s obs).1.is_drag = true ∧
      (process cfg s obs).1.gesture = GestureType.drag := by
  have h8 := pinch_landmark8 cfg obs.landmarks hct0 hct1 hp
  have hdeb : isDebounced cfg s obs.timestamp = false := by
    simp [isDebounced, hnd]
  have hcp : (computePointer cfg s.smoothed_position obs.landmarks).isSome = true := by
    rw [computePointer_isSome]
    exact h8
  rcases Option.isSome_iff_exists.mp hcp with ⟨pr, hpr⟩
  refine ⟨?_, ?_, ?_⟩ <;> simp [process, hp, hdeb, hpr]

theorem process_pointer_eq (cfg : GestureConfig) (s : ClassifierState)
    (obs : HandObservation) :
    (process cfg s obs).1.pointer =
      (computePointer cfg s.smoothed_position obs.landmarks).map (fun pr => pr.2) := by
  by_cases hp : pinchTriggered cfg obs.landmarks
  · simp only [process, hp, if_true]
    split <;> rfl
  · simp only [process, hp, Bool.false_eq_true, if_false]

theorem abs_copysign (m d : ℚ) (hm : 0 ≤ m) : |copysign m d| = m := by
  unfold copysign
  split
  · rw [abs_neg, abs_of_nonneg hm]
  · exact abs_of_nonneg hm

/-! ## Claims -/

/-- C2, counterexample: the claim says `drag_active` is false after any call
that returns `is_click = true`; but on scenario A the call clicks and leaves
`drag_active = true` (the source sets `self._drag_active = True` in the click
branch). -/
theorem claim_C2_counterexample :
    (process defaultGestureConfig initClassifierState obsScenarioA).1.is_click = true ∧
    (process defaultGestureConfig initClassifierState obsScenarioA).2.drag_active = true := by
  constructor <;>
    norm_num [process, computePointer, pinchTriggered, distanceSq, verticalDelta,
      isDebounced, copysign, clip, obsScenarioA, mkObservation, mkLandmarks_get4,
      mkLandmarks_get8, mkLandmarks_get12, defaultGestureConfig, initClassifierState]

/-- C2 (amended): after a `process()` call, `drag_active` is false exactly when
the call's pinch distance is not below `click_threshold`; every call whose
pinch distance is below the threshold — click calls included — sets it true. -/
theorem claim_C2_amended (cfg : GestureConfig) (s : ClassifierState)
    (obs : HandObservation) :
    (process cfg s obs).2.drag_active = pinchTriggered cfg obs.landmarks :=
  process_drag_active cfg s obs

/-- C5: an observation whose landmark sequence has no index 8 (fewer than 9
landmarks) yields `kind = Idle` with `pointer = None`. -/
theorem claim_C5 (cfg : GestureConfig) (s : ClassifierState) (obs : HandObservation)
    (h : obs.landmarks.length < 9) :
    (process cfg s obs).1.gesture = GestureType.idle ∧
      (process cfg s obs).1.pointer = none := by
  have h8 : obs.landmarks[8]? = none := by
    rw [List.getElem?_eq_none_iff]
    omega
  by_cases hp : pinchTriggered cfg obs.landmarks
  · simp only [process, hp, if_true]
    split <;> simp [computePointer, h8]
  · simp only [process, hp, Bool.false_eq_true, if_false]
    simp [computePointer, h8]

/-- C5 witness: the empty landmark list. -/
theorem claim_C5_witness :
    (process defaultGestureConfig initClassifierState
        ⟨(640, 480), [], "Right", 0⟩).1.gesture = GestureType.idle ∧
    (process defaultGestureConfig initClassifierState
        ⟨(640, 480), [], "Right", 0⟩).1.pointer = none :=
  claim_C5 defaultGestureConfig initClassifierState ⟨(640, 480), [], "Right", 0⟩
    (by norm_num)

/-- C6: with landmark 8 present, the emitted pointer is the raw `(x,y)`
clamped per axis on the first call (`smoothed_position = None`), and
`clamp(alpha*raw + (1-alpha)*smoothed_prev)` with `alpha` clamped to `[0,1]`
on later calls; moreover scenario B (`alpha=0.5`, index `(0.1,0.1)` then
`(0.9,0.9)`) puts the second pointer within `0.05` of `(0.5,0.5)`. -/
theorem claim_C6 :
    (∀ (cfg : GestureConfig) (s : ClassifierState) (obs : HandObservation)
       (ft : HandLandmark), obs.landmarks[8]? = some ft →
       (process cfg s obs).1.pointer = some
         (match s.smoothed_position with
          | none => (clip ft.x 0 1, clip ft.y 0 1)
          | some prev =>
              (clip (clip cfg.smoothing_alpha 0 1 * ft.x
                      + (1 - clip cfg.smoothing_alpha 0 1) * prev.1) 0 1,
               clip (clip cfg.smoothing_alpha 0 1 * ft.y
                      + (1 - clip cfg.smoothing_alpha 0 1) * prev.2) 0 1))) ∧
    (∃ p : ℚ × ℚ,
      (process cfgScenarioB
          (process cfgScenarioB initClassifierState obsScenarioB1).2
          obsScenarioB2).1.pointer = some p ∧
      |p.1 - 1/2| ≤ 1/20 ∧ |p.2 - 1/2| ≤ 1/20) := by
  constructor
  · intro cfg s obs ft h8
    rw [process_pointer_eq]
    cases hsm : s.smoothed_position <;> simp [computePointer, h8, hsm]
  · refine ⟨(1/2, 1/2), ?_, by norm_num, by norm_num⟩
    rw [process_pointer_eq]
    norm_num [process, computePointer, pinchTriggered, distanceSq, verticalDelta,
      isDebounced, copysign, clip, obsScenarioB1, obsScenarioB2, cfgScenarioB,
      mkObservation, mkLandmarks_get4, mkLandmarks_get8, mkLandmarks_get12,
      defaultGestureConfig, initClassifierState]

/-- C6 witness for the quantified part: first call on scenario B's first
frame emits the raw clamped position. -/
theorem claim_C6_witness :
    (process cfgScenarioB initClassifierState obsScenarioB1).1.pointer =
      some (clip (1/10) 0 1, clip (1/10) 0 1) :=
  claim_C6.1 cfgScenarioB initClassifierState obsScenarioB1
    ⟨1/10, 1/10, 0, 1⟩ (mkLandmarks_get8 _ _ _)

/-- C10: `reset()` clears `smoothed_position`, `last_pinched` and
`drag_active` and leaves `last_event_time` (the click-debounce reference)
unchanged; consequently a pinch arriving within the debounce window of the
last click still classifies as `Drag`, not `Click`, even right after a
`reset()` (thresholds read as distances: `0 ≤ click_threshold ≤ 1`). -/
theorem claim_C10 :
    (∀ s : ClassifierState, reset s =
      { smoothed_position := none, last_pinched := false,
        last_event_time := s.last_event_time, drag_active := false }) ∧
    (∀ (cfg : GestureConfig) (s : ClassifierState) (obs : HandObservation),
      0 ≤ cfg.click_threshold → cfg.click_threshold ≤ 1 →
      pinchTriggered cfg obs.landmarks = true →
      obs.timestamp - s.last_event_time < (cfg.debounce_ms : ℚ) / 1000 →
      (process cfg (reset s) obs).1.is_click = false ∧
        (process cfg (reset s) obs).1.is_drag = true ∧
        (process cfg (reset s) obs).1.gesture = GestureType.drag) := by
  constructor
  · intro s
    rfl
  · intro cfg s obs hct0 hct1 hp hwin
    apply process_drag_of_not_debounced cfg (reset s) obs hct0 hct1 hp
    show ¬ obs.timestamp - (reset s).last_event_time > (cfg.debounce_ms : ℚ) / 1000
    have : (reset s).last_event_time = s.last_event_time := rfl
    rw [this]
    linarith

/-- C10 witness: default config, a click recorded at time `1`, reset, then a
pinch at time `1.1` (inside the 180 ms window) classifies as `Drag`. -/
theorem claim_C10_witness :
    (process defaultGestureConfig
        (reset { smoothed_position := some (1/2, 1/2), last_pinched := true,
                 last_event_time := 1, drag_active := true })
        (mkObservation (1/2, 1/2) (12/25, 1/2) (1/2, 1/2) (11/10))).1.is_click = false ∧
    (process defaultGestureConfig
        (reset { smoothed_position := some (1/2, 1/2), last_pinched := true,
                 last_event_time := 1, drag_active := true })
        (mkObservation (1/2, 1/2) (12/25, 1/2) (1/2, 1/2) (11/10))).1.is_drag = true ∧
    (process defaultGestureConfig
        (reset { smoothed_position := some (1/2, 1/2), last_pinched := true,
                 last_event_time := 1, drag_active := true })
        (mkObservation (1/2, 1/2) (12/25, 1/2) (1/2, 1/2) (11/10))).1.gesture =
      GestureType.drag :=
  claim_C10.2 defaultGestureConfig
    { smoothed_position := some (1/2, 1/2), last_pinched := true,
      last_event_time := 1, drag_active := true }
    (mkObservation (1/2, 1/2) (12/25, 1/2) (1/2, 1/2) (11/10))
    (by norm_num [defaultGestureConfig])
    (by norm_num [defaultGestureConfig])
    (by norm_num [pinchTriggered, distanceSq, mkObservation, mkLandmarks_get4,
      mkLandmarks_get8, defaultGestureConfig])
    (by norm_num [mkObservation, defaultGestureConfig])

/-- C4: whenever the scroll condition and the pinch condition both hold and
the pointer is computable, the pinch check overwrites the scroll
classification: the result is `Click` or `Drag`, never `Scroll`.  In
particular scenario A on a fresh classifier past the debounce window yields
`Click` with `is_click = true`. -/
theorem claim_C4 :
    (∀ (cfg : GestureConfig) (s : ClassifierState) (obs : HandObservation),
      |verticalDelta obs.landmarks 8 12| > cfg.scroll_threshold →
      pinchTriggered cfg obs.landmarks = true →
      obs.landmarks[8]?.isSome = true →
      ((process cfg s obs).1.gesture = GestureType.click ∨
        (process cfg s obs).1.gesture = GestureType.drag)) ∧
    ((process defaultGestureConfig initClassifierState obsScenarioA).1.gesture =
        GestureType.click ∧
      (process defaultGestureConfig initClassifierState obsScenarioA).1.is_click = true) := by
  constructor
  · intro cfg s obs _ hp h8
    have hcp : (computePointer cfg s.smoothed_position obs.landmarks).isSome = true := by
      rw [computePointer_isSome]
      exact h8
    rcases Option.isSome_iff_exists.mp hcp with ⟨pr, hpr⟩
    by_cases hc : (!s.last_pinched && isDebounced cfg s obs.timestamp) = true
    · left
      simp [process, hp, hc, hpr]
    · right
      simp [process, hp, hc, hpr]
  · constructor <;>
      norm_num [process, computePointer, pinchTriggered, distanceSq, verticalDelta,
        isDebounced, copysign, clip, obsScenarioA, mkObservation, mkLandmarks_get4,
        mkLandmarks_get8, mkLandmarks_get12, defaultGestureConfig, initClassifierState]

/-- C4 witness: scenario A satisfies all three hypotheses of the quantified
part (`middle_delta = 0.2 > 0.12`, pinch distance `0.02 < 0.035`, landmark 8
present), and the result kind is `Click` or `Drag`. -/
theorem claim_C4_witness :
    (process defaultGestureConfig initClassifierState obsScenarioA).1.gesture =
        GestureType.click ∨
      (process defaultGestureConfig initClassifierState obsScenarioA).1.gesture =
        GestureType.drag :=
  claim_C4.1 defaultGestureConfig initClassifierState obsScenarioA
    (by norm_num [verticalDelta, obsScenarioA, mkObservation, mkLandmarks_get8,
      mkLandmarks_get12, defaultGestureConfig, abs_of_nonneg])
    (by norm_num [pinchTriggered, distanceSq, obsScenarioA, mkObservation,
      mkLandmarks_get4, mkLandmarks_get8, defaultGestureConfig])
    (by rw [obsScenarioA, mkObservation, mkLandmarks_get8]; rfl)

/-- C7: when the scroll condition holds and no pinch triggers that frame
(pointer computable), the result is `Scroll` with
`scroll_delta = -copysign(min(|middle_delta|, 0.25), middle_delta)`, which is
`-sign(middle_delta)*min(|middle_delta|, 0.25)`: nonpositive for a positive
delta, nonnegative for a negative delta, magnitude at most `0.25`; and
scenario C (`middle_delta = 0.3`, threshold `0.12`) yields `Scroll` with
`scroll_delta = -0.25`. -/
theorem claim_C7 :
    (∀ (cfg : GestureConfig) (s : ClassifierState) (obs : HandObservation),
      |verticalDelta obs.landmarks 8 12| > cfg.scroll_threshold →
      pinchTriggered cfg obs.landmarks = false →
      obs.landmarks[8]?.isSome = true →
      ((process cfg s obs).1.gesture = GestureType.scroll ∧
        (process cfg s obs).1.scroll_delta =
          -(copysign (min |verticalDelta obs.landmarks 8 12| (1/4))
              (verticalDelta obs.landmarks 8 12)) ∧
        (0 < verticalDelta obs.landmarks 8 12 →
          (process cfg s obs).1.scroll_delta ≤ 0) ∧
        (verticalDelta obs.landmarks 8 12 < 0 →
          0 ≤ (process cfg s obs).1.scroll_delta) ∧
        |(process cfg s obs).1.scroll_delta| ≤ 1/4)) ∧
    ((process defaultGestureConfig initClassifierState obsScenarioC).1.gesture =
        GestureType.scroll ∧
      (process defaultGestureConfig initClassifierState obsScenarioC).1.scroll_delta =
        -(1/4)) := by
  constructor
  · intro cfg s obs hs hnp h8
    have hcp : (computePointer cfg s.smoothed_position obs.landmarks).isSome = true := by
      rw [computePointer_isSome]
      exact h8
    rcases Option.isSome_iff_exists.mp hcp with ⟨pr, hpr⟩
    have hmin : (0:ℚ) ≤ min |verticalDelta obs.landmarks 8 12| (1/4) :=
      le_min (abs_nonneg _) (by norm_num)
    have hdelta : (process cfg s obs).1.scroll_delta =
        -(copysign (min |verticalDelta obs.landmarks 8 12| (1/4))
            (verticalDelta obs.landmarks 8 12)) := by
      simp [process, hnp, hpr, hs]
    refine ⟨?_, hdelta, ?_, ?_, ?_⟩
    · simp [process, hnp, hpr, hs]
    · intro hpos
      rw [hdelta]
      unfold copysign
      rw [if_neg (by linarith)]
      linarith
    · intro hneg
      rw [hdelta]
      unfold copysign
      rw [if_pos hneg]
      linarith
    · rw [hdelta, abs_neg, abs_copysign _ _ hmin]
      exact min_le_right _ _
  · constructor <;>
      norm_num [process, computePointer, pinchTriggered, distanceSq, verticalDelta,
        isDebounced, copysign, clip, obsScenarioC, mkObservation, mkLandmarks_get4,
        mkLandmarks_get8, mkLandmarks_get12, defaultGestureConfig, initClassifierState,
        abs_of_nonneg, min_def]

/-- C7 witness: scenario C satisfies the hypotheses of the quantified part
(`middle_delta = 0.3`, no pinch, landmark 8 present). -/
theorem claim_C7_witness :
    (process defaultGestureConfig initClassifierState obsScenarioC).1.gesture =
        GestureType.scroll ∧
      (process defaultGestureConfig initClassifierState obsScenarioC).1.scroll_delta =
        -(copysign (min |verticalDelta obsScenarioC.landmarks 8 12| (1/4))
            (verticalDelta obsScenarioC.landmarks 8 12)) ∧
      (0 < verticalDelta obsScenarioC.landmarks 8 12 →
        (process defaultGestureConfig initClassifierState obsScenarioC).1.scroll_delta ≤ 0) ∧
      (verticalDelta obsScenarioC.landmarks 8 12 < 0 →
        0 ≤ (process defaultGestureConfig initClassifierState obsScenarioC).1.scroll_delta) ∧
      |(process defaultGestureConfig initClassifierState obsScenarioC).1.scroll_delta| ≤ 1/4 :=
  claim_C7.1 defaultGestureConfig initClassifierState obsScenarioC
    (by norm_num [verticalDelta, obsScenarioC, mkObservation, mkLandmarks_get8,
      mkLandmarks_get12, defaultGestureConfig, abs_of_nonneg])
    (by norm_num [pinchTriggered, distanceSq, obsScenarioC, mkObservation,
      mkLandmarks_get4, mkLandmarks_get8, defaultGestureConfig])
    (by rw [obsScenarioC, mkObservation, mkLandmarks_get8]; rfl)

theorem engineTick_none (gcfg : GestureConfig) (maxInactive : ℚ) (sw sh : ℤ)
    (es : EngineState) (now : ℚ) :
    engineTick gcfg maxInactive sw sh es none now =
      ([], { es with gestures := reset es.gestures },
        if maxInactive > 0 ∧ now - es.last_seen > maxInactive then
          some "idle_timeout" 
        else none) := by
  unfold engineTick
  by_cases hc : maxInactive > 0 ∧ now - es.last_seen > maxInactive
  · rw [if_pos hc, if_pos hc]
  · rw [if_neg hc, if_neg hc]

theorem stateAfter_let_lb (cfg : GestureConfig) (t0 : ℚ) :
    ∀ (mid : List HandObservation) (s : ClassifierState),
      t0 ≤ s.last_event_time → (∀ o ∈ mid, t0 ≤ o.timestamp) →
      t0 ≤ (stateAfter cfg s mid).last_event_time := by
  intro mid
  induction mid with
  | nil => intro s h _; exact h
  | cons o rest ih =>
      intro s h hm
      show t0 ≤ (stateAfter cfg (process cfg s o).2 rest).last_event_time
      apply ih
      · rcases process_last_event_time_cases cfg s o with h1 | h1 <;> rw [h1]
        · exact h
        · exact hm o (List.mem_cons_self _ _)
      · intro o' ho'
        exact hm o' (List.mem_cons_of_mem _ ho')

/-- C3: two released-to-pinched transitions, the first of which clicks, with
the second pinch less than `debounce_ms/1000` after the first click's
timestamp (and no observation in between older than the click), never both
click: the second call returns `Drag` with `is_drag = true` and
`is_click = false`.  Thresholds read as distances
(`0 ≤ click_threshold ≤ 1`). -/
theorem claim_C3 (cfg : GestureConfig) (s0 : ClassifierState)
    (pre mid : List HandObservation) (oi oj : HandObservation)
    (hct0 : 0 ≤ cfg.click_threshold) (hct1 : cfg.click_threshold ≤ 1)
    (hclick : (process cfg (stateAfter cfg s0 pre) oi).1.is_click = true)
    (hmid : ∀ o ∈ mid, oi.timestamp ≤ o.timestamp)
    (_htrans : (stateAfter cfg s0 (pre ++ oi :: mid)).last_pinched = false)
    (hpinchj : pinchTriggered cfg oj.landmarks = true)
    (hdeb : oj.timestamp - oi.timestamp < (cfg.debounce_ms : ℚ) / 1000) :
    (process cfg (stateAfter cfg s0 (pre ++ oi :: mid)) oj).1.is_click = false ∧
      (process cfg (stateAfter cfg s0 (pre ++ oi :: mid)) oj).1.is_drag = true ∧
      (process cfg (stateAfter cfg s0 (pre ++ oi :: mid)) oj).1.gesture =
        GestureType.drag := by
  have hse : stateAfter cfg s0 (pre ++ oi :: mid) =
      stateAfter cfg (process cfg (stateAfter cfg s0 pre) oi).2 mid := by
    unfold stateAfter
    rw [List.foldl_append]
    rfl
  have hti : (process cfg (stateAfter cfg s0 pre) oi).2.last_event_time =
      oi.timestamp := process_is_click_time _ _ _ hclick
  have hlb : oi.timestamp ≤
      (stateAfter cfg s0 (pre ++ oi :: mid)).last_event_time := by
    rw [hse]
    exact stateAfter_let_lb cfg oi.timestamp mid _ (le_of_eq hti.symm) hmid
  apply process_drag_of_not_debounced cfg _ oj hct0 hct1 hpinchj
  intro hgt
  have : oj.timestamp - oi.timestamp >
      (cfg.debounce_ms : ℚ) / 1000 := by linarith
  linarith

/-- C3 witness: click at `t=1`, release at `t=1.05`, pinch again at `t=1.1`
with the default 180 ms debounce window: the second transition yields `Drag`,
not `Click`. -/
theorem claim_C3_witness :
    (process defaultGestureConfig
        (stateAfter defaultGestureConfig initClassifierState
          ([] ++ obsPinchFirst :: [obsReleaseMid])) obsPinchSecond).1.is_click = false ∧
      (process defaultGestureConfig
        (stateAfter defaultGestureConfig initClassifierState
          ([] ++ obsPinchFirst :: [obsReleaseMid])) obsPinchSecond).1.is_drag = true ∧
      (process defaultGestureConfig
        (stateAfter defaultGestureConfig initClassifierState
          ([] ++ obsPinchFirst :: [obsReleaseMid])) obsPinchSecond).1.gesture =
        GestureType.drag := by
  refine claim_C3 defaultGestureConfig initClassifierState [] [obsReleaseMid]
    obsPinchFirst obsPinchSecond ?_ ?_ ?_ ?_ ?_ ?_ ?_
  · norm_num [defaultGestureConfig]
  · norm_num [defaultGestureConfig]
  · show (process defaultGestureConfig initClassifierState obsPinchFirst).1.is_click =
      true
    norm_num [process, computePointer, pinchTriggered, distanceSq, verticalDelta,
      isDebounced, copysign, clip, obsPinchFirst, mkObservation, mkLandmarks_get4,
      mkLandmarks_get8, mkLandmarks_get12, defaultGestureConfig, initClassifierState]
  · intro o ho
    simp only [List.mem_singleton] at ho
    norm_num [ho, obsPinchFirst, obsReleaseMid, mkObservation]
  · show (process defaultGestureConfig
        (process defaultGestureConfig initClassifierState obsPinchFirst).2
        obsReleaseMid).2.last_pinched = false
    rw [process_last_pinched]
    norm_num [pinchTriggered, distanceSq, obsReleaseMid, mkObservation,
      mkLandmarks_get4, mkLandmarks_get8, defaultGestureConfig]
  · norm_num [pinchTriggered, distanceSq, obsPinchSecond, mkObservation,
      mkLandmarks_get4, mkLandmarks_get8, defaultGestureConfig]
  · norm_num [obsPinchFirst, obsPinchSecond, mkObservation, defaultGestureConfig]

/-- C1, counterexample: the claim says a no-observation tick with
`dragging = true` issues a release and clears the flag during that same tick;
but the tick issues no command at all and leaves `dragging` set (the source's
`observation is None` branch only resets the classifier — the release lives
in the `finally` block). -/
theorem claim_C1_counterexample :
    (engineTick defaultGestureConfig 10 1920 1080 esDragging none 5).1 = [] ∧
      (engineTick defaultGestureConfig 10 1920 1080 esDragging none 5).2.1.dragging =
        true := by
  constructor <;> norm_num [engineTick, reset, esDragging, initClassifierState]

/-- C1 (amended): on a no-observation tick the engine calls `reset()` on the
classifier and issues no pointer command; `dragging` and `last_seen` are left
unchanged by the tick.  A button still held when the loop exits is released
at loop teardown (the `finally` block), after which `dragging` is false. -/
theorem claim_C1_amended :
    (∀ (gcfg : GestureConfig) (maxInactive : ℚ) (sw sh : ℤ) (es : EngineState)
       (now : ℚ),
      (engineTick gcfg maxInactive sw sh es none now).1 = [] ∧
        (engineTick gcfg maxInactive sw sh es none now).2.1 =
          { es with gestures := reset es.gestures }) ∧
    (∀ (gcfg : GestureConfig) (maxInactive : ℚ) (sw sh : ℤ) (es : EngineState)
       (ticks : List (Option HandObservation × ℚ)),
      (engineRun gcfg maxInactive sw sh es ticks).2.2.dragging = false ∧
        ((runLoop gcfg maxInactive sw sh es ticks).2.2.dragging = true →
          (engineRun gcfg maxInactive sw sh es ticks).2.1 =
            (runLoop gcfg maxInactive sw sh es ticks).2.1 ++ [PointerCmd.release])) := by
  constructor
  · intro gcfg maxInactive sw sh es now
    unfold engineTick
    by_cases hc : maxInactive > 0 ∧ now - es.last_seen > maxInactive
    · rw [if_pos hc]
      exact ⟨rfl, rfl⟩
    · rw [if_neg hc]
      exact ⟨rfl, rfl⟩
  · intro gcfg maxInactive sw sh es ticks
    unfold engineRun
    by_cases hd : (runLoop gcfg maxInactive sw sh es ticks).2.2.dragging = true
    · rw [if_pos hd]
      exact ⟨rfl, fun _ => rfl⟩
    · rw [if_neg hd]
      rw [Bool.not_eq_true] at hd
      exact ⟨hd, fun h => absurd h (by rw [hd]; exact Bool.false_ne_true)⟩

/-- C1 witness: the tick part at the state of the counterexample scenario,
and the teardown part on an empty tick list with the button held. -/
theorem claim_C1_witness :
    ((engineTick defaultGestureConfig 10 1920 1080 esDragging none 5).1 = [] ∧
      (engineTick defaultGestureConfig 10 1920 1080 esDragging none 5).2.1 =
        { esDragging with gestures := reset esDragging.gestures }) ∧
    ((engineRun defaultGestureConfig 10 1920 1080 esDragging []).2.2.dragging = false ∧
      (engineRun defaultGestureConfig 10 1920 1080 esDragging []).2.1 =
        (runLoop defaultGestureConfig 10 1920 1080 esDragging []).2.1 ++
          [PointerCmd.release]) :=
  ⟨claim_C1_amended.1 defaultGestureConfig 10 1920 1080 esDragging 5,
   (claim_C1_amended.2 defaultGestureConfig 10 1920 1080 esDragging []).1,
   (claim_C1_amended.2 defaultGestureConfig 10 1920 1080 esDragging []).2 rfl⟩

/-- C8, counterexample: the claim says the move command is issued at
`round(px*W)`; on pointer `(0.75, 0.75)` with a `10 × 10` screen the engine
issues `move 7 7` (`int()` truncation), while rounding would give `8`. -/
theorem claim_C8_counterexample :
    (applyGesture gMoveQuarter 10 10 false).1 = [PointerCmd.move 7 7] ∧
      (7 : ℤ) ≠ round ((3/4 : ℚ) * 10) := by
  constructor
  · norm_num [applyGesture, gMoveQuarter, pyInt]
    decide
  · rw [round_eq]
    norm_num

/-- C8 (amended): for every gesture event with a non-`None` pointer the
engine issues a move command first, at `x = int(px*W)`, `y = int(py*H)`
(Python `int()` truncates toward zero — it does not round), and a scroll
event with nonzero delta hands the sink a scroll command scaled by exactly
`120` units per normalized unit. -/
theorem claim_C8_amended (g : GestureResult) (sw sh : ℤ) (d : Bool) (p : ℚ × ℚ)
    (hp : g.pointer = some p) :
    (applyGesture g sw sh d).1.head? =
      some (PointerCmd.move (pyInt (p.1 * sw)) (pyInt (p.2 * sh))) ∧
    (g.gesture = GestureType.scroll → g.scroll_delta ≠ 0 →
      PointerCmd.scroll (g.scroll_delta * 120) ∈ (applyGesture g sw sh d).1) := by
  constructor
  · simp [applyGesture, hp]
  · intro hsc hnz
    have hnc : ¬ (g.gesture = GestureType.click ∧ g.is_click = true) := by
      rw [hsc]
      rintro ⟨h, -⟩
      exact absurd h (by simp)
    have hnd : ¬ g.gesture = GestureType.drag := by
      rw [hsc]
      simp
    simp [applyGesture, hp, hnc, hnd, hsc, hnz]

/-- C8 witness: a scroll event with pointer `(1/2, 1/2)` on a `10 × 10`
screen: the move command comes first at the truncated coordinates, and the
scroll command carries `-(1/4) * 120`. -/
theorem claim_C8_witness :
    (applyGesture gScrollHalf 10 10 false).1.head? =
      some (PointerCmd.move (pyInt ((1:ℚ)/2 * 10)) (pyInt ((1:ℚ)/2 * 10))) ∧
      PointerCmd.scroll (-(1/4) * 120) ∈ (applyGesture gScrollHalf 10 10 false).1 := by
  have h := claim_C8_amended gScrollHalf 10 10 false (1/2, 1/2) rfl
  exact ⟨h.1, h.2 rfl (by norm_num [gScrollHalf])⟩

theorem runLoop_all_none (gcfg : GestureConfig) (maxInactive : ℚ) (sw sh : ℤ) :
    ∀ (ticks : List (Option HandObservation × ℚ)) (es : EngineState),
      0 < maxInactive →
      (∀ t ∈ ticks, t.1 = none) →
      (∃ t ∈ ticks, t.2 - es.last_seen > maxInactive) →
      (runLoop gcfg maxInactive sw sh es ticks).1 = "idle_timeout" ∧
        (runLoop gcfg maxInactive sw sh es ticks).2.1 = [] ∧
        (runLoop gcfg maxInactive sw sh es ticks).2.2.dragging = es.dragging := by
  intro ticks
  induction ticks with
  | nil =>
      intro es _ _ hex
      simp at hex
  | cons t rest ih =>
      intro es hpos hnone hex
      obtain ⟨obs, now⟩ := t
      have hobs : obs = none := hnone (obs, now) (List.mem_cons_self _ _)
      subst hobs
      simp only [runLoop, engineTick_none]
      by_cases hc : now - es.last_seen > maxInactive
      · rw [if_pos ⟨hpos, hc⟩]
        exact ⟨rfl, rfl, rfl⟩
      · rw [if_neg (fun h => hc h.2)]
        have hex2 : ∃ t ∈ rest, t.2 - es.last_seen > maxInactive := by
          rcases hex with ⟨t2, ht2, hgt⟩
          rcases List.mem_cons.mp ht2 with h | h
          · exfalso
            rw [h] at hgt
            exact hc hgt
          · exact ⟨t2, h, hgt⟩
        have hrec := ih { es with gestures := reset es.gestures } hpos
          (fun o ho => hnone o (List.mem_cons_of_mem _ ho)) hex2
        exact ⟨hrec.1, by simp [hrec.2.1], hrec.2.2⟩

/-- C9: if every tick of the run carries no observation and some tick's loop
time exceeds `last_seen` by more than `max_inactive_seconds > 0`, the run
returns reason `idle_timeout`; a held button is released exactly once (the
whole command output is that single release), and `dragging` is false on
return. -/
theorem claim_C9 (gcfg : GestureConfig) (maxInactive : ℚ) (sw sh : ℤ)
    (es : EngineState) (ticks : List (Option HandObservation × ℚ))
    (hpos : 0 < maxInactive)
    (hnone : ∀ t ∈ ticks, t.1 = none)
    (hex : ∃ t ∈ ticks, t.2 - es.last_seen > maxInactive) :
    (engineRun gcfg maxInactive sw sh es ticks).1 = "idle_timeout" ∧
      (engineRun gcfg maxInactive sw sh es ticks).2.1 =
        (if es.dragging then [PointerCmd.release] else []) ∧
      (engineRun gcfg maxInactive sw sh es ticks).2.2.dragging = false := by
  obtain ⟨hr, hcmds, hdrag⟩ :=
    runLoop_all_none gcfg maxInactive sw sh ticks es hpos hnone hex
  unfold engineRun
  by_cases hd : es.dragging
  · rw [if_pos (by rw [hdrag, hd])]
    refine ⟨hr, ?_, rfl⟩
    rw [hcmds, if_pos hd]
    rfl
  · rw [if_neg (by rw [hdrag]; exact hd)]
    refine ⟨hr, ?_, ?_⟩
    · rw [hcmds, if_neg hd]
    · rw [hdrag, Bool.eq_false_iff]
      exact hd

/-- C9 witness: the button is held, a single no-observation tick at loop time
`20` against `last_seen = 0` and a 10-second timeout: the run ends with
`idle_timeout` and exactly one release. -/
theorem claim_C9_witness :
    (engineRun defaultGestureConfig 10 1920 1080 esDragging [(none, 20)]).1 =
        "idle_timeout" ∧
      (engineRun defaultGestureConfig 10 1920 1080 esDragging [(none, 20)]).2.1 =
        (if esDragging.dragging then [PointerCmd.release] else []) ∧
      (engineRun defaultGestureConfig 10 1920 1080 esDragging
          [(none, 20)]).2.2.dragging = false := by
  refine claim_C9 defaultGestureConfig 10 1920 1080 esDragging [(none, 20)]
    (by norm_num) ?_ ?_
  · intro t ht
    simp only [List.mem_singleton] at ht
    rw [ht]
  · refine ⟨(none, 20), List.mem_singleton_self _, ?_⟩
    norm_num [esDragging]

end VirtualMouse
